import Mathlib

/-!
Verification development for the chat backend: session store
(`services/session_service.py`), identity resolver and chat endpoints
(`main.py`, `chat_routes.py`), and the conversation store (`db.py`).

Shallow embedding conventions:
  * timestamps are integers (seconds); `now` models `datetime.utcnow()` /
    SQL `NOW()`;
  * the key-value session backend (Redis, or the in-process fallback dict)
    is an association list; the Redis hard-TTL backstop is not modelled
    because its duration equals the payload-level `expires_at` and the
    payload check subsumes it;
  * fallible Python / SQL operations return `Except`;
  * message payloads (`message_list` columns, i.e. serialized batches) are
    kept as already-decoded lists of opaque message parts, since the
    claims under study do not depend on the JSON round-trip.
-/

/-! ### Session store (`app/services/session_service.py`) -/

/-- `SessionData` pydantic model (`app/models/auth.py`): the validated shape
of a stored session payload. -/
structure SessionPayload where
  id : String
  provider_id : String
  email : String
  name : String
  picture : Option String
  provider : String
  created_at : Int
  expires_at : Int
deriving Repr, DecidableEq

/-- A raw value held in the key-value store: either a string that
`SessionData.model_validate_json` accepts (kept in validated form) or one
it rejects with a `ValidationError`. -/
inductive StoredPayload where
  | valid (p : SessionPayload)
  | corrupt
deriving Repr, DecidableEq

/-- State of `SessionService`: whether the Redis connection is available
(`_use_redis` and a live client) and the backing key-value map. -/
structure SessionState where
  useRedis : Bool
  store : List (String × StoredPayload)
deriving Repr, DecidableEq

/-- `_get_session_key`: keys are namespaced with the string "session:". -/
def session_key (session_id : String) : String :=
  "session:" ++ session_id

/-- `_get_data`: read a key from the backing store. -/
def getData (s : SessionState) (key : String) : Option StoredPayload :=
  (s.store.find? (fun kv => kv.1 == key)).map (fun kv => kv.2)

/-- `_delete_data` on the map part: remove a key. -/
def deleteData (s : SessionState) (key : String) : SessionState :=
  { s with store := s.store.filter (fun kv => kv.1 != key) }

/-- `delete_session`: deletes the record, returns whether one existed. -/
def delete_session (s : SessionState) (session_id : String) :
    Bool × SessionState :=
  (s.store.any (fun kv => kv.1 == session_key session_id),
   deleteData s (session_key session_id))

/-- `get_session`: absent key gives `None`; a payload that fails
validation is deleted and `None` returned; an expired payload
(`utcnow() > expires_at`) is deleted and `None` returned; otherwise the
validated payload is returned. -/
def get_session (s : SessionState) (now : Int) (session_id : String) :
    Option SessionPayload × SessionState :=
  match getData s (session_key session_id) with
  | none => (none, s)
  | some .corrupt => (none, (delete_session s session_id).2)
  | some (.valid p) =>
    if p.expires_at < now then (none, (delete_session s session_id).2)
    else (some p, s)

/-- A Python value as seen by `json.dumps`: strings and `None` are
serializable, `datetime` and pydantic `Url` objects are not. -/
inductive PyVal where
  | str (s : String)
  | url (s : String)
  | datetime (t : Int)
  | pynone
deriving Repr, DecidableEq

/-- `SessionData.model_dump()` (python mode): `created_at` / `expires_at`
stay `datetime` objects and `picture` stays a `Url` object. -/
def model_dump (p : SessionPayload) : List (String × PyVal) :=
  [("id", .str p.id), ("provider_id", .str p.provider_id),
   ("email", .str p.email), ("name", .str p.name),
   ("picture", match p.picture with | some u => .url u | none => .pynone),
   ("provider", .str p.provider),
   ("created_at", .datetime p.created_at),
   ("expires_at", .datetime p.expires_at)]

/-- `datetime.isoformat()`, kept abstract as a rendering to a string. -/
def isoformat (t : Int) : String :=
  toString t

/-- Python dict item assignment `d[k] = v` for a key already present. -/
def setItem (d : List (String × PyVal)) (k : String) (v : PyVal) :
    List (String × PyVal) :=
  d.map (fun kv => if kv.1 == k then (kv.1, v) else kv)

/-- `json.dumps` on a dict: raises `TypeError` when any value is a
`datetime` or `Url` object (not JSON serializable). -/
def json_dumps (d : List (String × PyVal)) : Except Unit Unit :=
  if d.any (fun kv =>
      match kv.2 with
      | .datetime _ => true
      | .url _ => true
      | _ => false) then
    .error ()
  else
    .ok ()

/-- Redis `setex`: store a value under a key (TTL backstop not modelled). -/
def setData (s : SessionState) (key : String) (v : StoredPayload) :
    SessionState :=
  { s with store := (key, v) :: s.store.filter (fun kv => kv.1 != key) }

/-- `refresh_session`: looks the session up via `get_session`; if absent
returns `False`; updates `expires_at` in the dumped dict; in fallback mode
returns `False` without storing; in Redis mode calls
`setex(key, ttl, json.dumps(session_data))`.  The `json_dumps` success
branch would re-store the payload with the new expiry, but it is
unreachable: the dict always holds `created_at` as a `datetime`. -/
def refresh_session (s : SessionState) (now : Int) (session_id : String)
    (expires_in_days : Int := 7) : Except Unit (Bool × SessionState) :=
  match get_session s now session_id with
  | (none, s1) => .ok (false, s1)
  | (some p, s1) =>
    let expires_at := now + expires_in_days * 86400
    let session_data :=
      setItem (model_dump p) "expires_at" (.str (isoformat expires_at))
    if s1.useRedis then
      match json_dumps session_data with
      | .error e => .error e
      | .ok _ =>
        .ok (true, setData s1 (session_key session_id)
          (.valid { p with expires_at := expires_at }))
    else
      .ok (false, s1)

/-! ### Identity resolution (`app/main.py`) -/

/-- The two cookies the resolver reads; `none` is an absent cookie.  The
Python code tests cookie values for truthiness, so the empty string
behaves like an absent cookie. -/
structure RequestCookies where
  session_id : Option String
  anonymous_user_id : Option String
deriving Repr, DecidableEq

/-- `get_authenticated_user_id`: reads the `session_id` cookie; when it is
present (truthy) and the session store returns a live payload, the result
is `(payload id, True)`; otherwise `(None, False)`.  The session-store
side effects (lazy expiry deletions) are threaded through. -/
def get_authenticated_user_id (ss : SessionState) (now : Int)
    (req : RequestCookies) : (Option String × Bool) × SessionState :=
  match req.session_id with
  | some sid =>
    if sid != "" then
      match get_session ss now sid with
      | (some p, ss1) => ((some p.id, true), ss1)
      | (none, ss1) => ((none, false), ss1)
    else ((none, false), ss)
  | none => ((none, false), ss)

/-- `get_or_create_anonymous_user_id`: reuse a truthy `anonymous_user_id`
cookie, otherwise mint `anon_<uuid4>`; `fresh_uuid` models the freshly
generated uuid. -/
def get_or_create_anonymous_user_id (req : RequestCookies)
    (fresh_uuid : String) : String :=
  match req.anonymous_user_id with
  | some a => if a != "" then a else "anon_" ++ fresh_uuid
  | none => "anon_" ++ fresh_uuid

/-- `get_user_id_for_conversation`: authenticated identity wins; otherwise
fall back to the anonymous cookie identity.  (The `(None, True)` shape
cannot be produced by `get_authenticated_user_id`.) -/
def get_user_id_for_conversation (ss : SessionState) (now : Int)
    (req : RequestCookies) (fresh_uuid : String) :
    (String × Bool) × SessionState :=
  match get_authenticated_user_id ss now req with
  | ((some uid, true), ss1) => ((uid, false), ss1)
  | ((_, _), ss1) =>
    ((get_or_create_anonymous_user_id req fresh_uuid, true), ss1)

/-- Python `str.split(sep)` for a one-character separator. -/
def split_on_char (sep : Char) : List Char → List (List Char)
  | [] => [[]]
  | c :: rest =>
    match split_on_char sep rest with
    | [] => [[]]
    | h :: t => if c = sep then [] :: h :: t else (c :: h) :: t

/-- The anonymous username derivation in `ensure_anonymous_user_exists`:
`f"Anonymous-{user_id.split('_')[-1][:8]}"`. -/
def anon_username (user_id : String) : String :=
  "Anonymous-" ++ String.mk (((split_on_char '_' user_id.data).getLastD []).take 8)

/-! ### Relational store (`app/db.py`) -/

/-- One opaque message part (the provider-agnostic representation). -/
abbrev Msg := String

/-- A `users` row (the columns touched by `get_or_create_user`; the
`username` column carries a UNIQUE constraint, with SQL `NULL` allowing
repeats). -/
structure UserRow where
  id : String
  username : Option String
deriving Repr, DecidableEq

/-- A `conversations` row. -/
structure ConversationRow where
  id : String
  user_id : String
  title : Option String
  created_at : Int
  updated_at : Int
  is_active : Bool
deriving Repr, DecidableEq

/-- A `messages` row: one appended batch, keyed by the auto-incrementing
SERIAL `id`. -/
structure MessageRow where
  id : Nat
  conversation_id : String
  message_list : List Msg
  created_at : Int
deriving Repr, DecidableEq

/-- The relational state, plus the SERIAL sequence counter and a clock
supplying SQL `NOW()` / `CURRENT_TIMESTAMP`. -/
structure DB where
  now : Int
  users : List UserRow
  conversations : List ConversationRow
  messages : List MessageRow
  next_message_id : Nat
deriving Repr, DecidableEq

/-- Errors surfaced by PostgreSQL for the statements in `db.py`. -/
inductive DBErr where
  | uniqueViolation
  | foreignKeyViolation
  | negativeLimit
deriving Repr, DecidableEq

/-- Whether a `users` row with this primary key exists. -/
def user_exists (db : DB) (user_id : String) : Bool :=
  db.users.any (fun u => u.id == user_id)

/-- `Database.get_or_create_user`: return the existing row, or insert
`(id, username)` and return it.  The INSERT is `ON CONFLICT (id) DO
NOTHING`, so only a `username` UNIQUE violation can raise. -/
def get_or_create_user (db : DB) (user_id username : String) :
    Except DBErr (UserRow × DB) :=
  match db.users.find? (fun u => u.id == user_id) with
  | some u => .ok (u, db)
  | none =>
    if db.users.any (fun u => u.username == some username) then
      .error .uniqueViolation
    else
      .ok ({ id := user_id, username := some username },
        { db with users := db.users ++ [{ id := user_id, username := some username }] })

/-- `ensure_anonymous_user_exists` (`main.py`): for an anonymous identity,
idempotently create the user row with the derived username. -/
def ensure_anonymous_user_exists (db : DB) (user_id : String)
    (is_anonymous : Bool) : Except DBErr DB :=
  if is_anonymous then
    (get_or_create_user db user_id (anon_username user_id)).map (fun r => r.2)
  else .ok db

/-- `Database.conversation_exists`: `SELECT 1 FROM conversations WHERE id
= $1` finds a row. -/
def conversation_exists (db : DB) (conversation_id : String) : Bool :=
  db.conversations.any (fun c => c.id == conversation_id)

/-- `Database.user_owns_conversation`: `SELECT 1 ... WHERE id = $1 AND
user_id = $2` finds a row; total, no exception for a missing
conversation. -/
def user_owns_conversation (db : DB) (conversation_id user_id : String) :
    Bool :=
  db.conversations.any
    (fun c => c.id == conversation_id && c.user_id == user_id)

/-- `Database.create_conversation_with_id`: plain INSERT with
caller-supplied primary key; a duplicate id raises a unique violation and
a missing owner raises a foreign-key violation; `created_at`,
`updated_at` and `is_active` take their column defaults. -/
def create_conversation_with_id (db : DB)
    (conversation_id user_id title : String) : Except DBErr DB :=
  if conversation_exists db conversation_id then .error .uniqueViolation
  else if !user_exists db user_id then .error .foreignKeyViolation
  else .ok { db with conversations := db.conversations ++
    [{ id := conversation_id, user_id := user_id, title := some title,
       created_at := db.now, updated_at := db.now, is_active := true }] }

/-- `COUNT(m.id)` over the LEFT JOIN in `get_user_conversations`: the
number of `messages` rows (batches) of a conversation. -/
def message_count (db : DB) (conversation_id : String) : Nat :=
  (db.messages.filter (fun m => m.conversation_id == conversation_id)).length

/-- One element of the `get_user_conversations` result set. -/
structure ConversationInfo where
  id : String
  title : Option String
  created_at : Int
  updated_at : Int
  message_count : Nat
deriving Repr, DecidableEq

/-- `Database.get_user_conversations`: active conversations of the user,
`ORDER BY updated_at DESC` (modelled as a stable sort) then `LIMIT $2`;
PostgreSQL rejects a negative LIMIT, and the Python default is 50. -/
def get_user_conversations (db : DB) (user_id : String)
    (limit : Int := 50) : Except DBErr (List ConversationInfo) :=
  if limit < 0 then .error .negativeLimit
  else
    let rows := db.conversations.filter
      (fun c => c.user_id == user_id && c.is_active)
    let sorted := rows.insertionSort
      (fun a b => b.updated_at ≤ a.updated_at)
    .ok ((sorted.take limit.toNat).map (fun c =>
      { id := c.id, title := c.title, created_at := c.created_at,
        updated_at := c.updated_at,
        message_count := message_count db c.id }))

/-- `Database.get_conversation_messages`: batches of the conversation
`ORDER BY id` (the SERIAL sequence, never the timestamp), each batch
decoded and concatenated. -/
def get_conversation_messages (db : DB) (conversation_id : String) :
    List Msg :=
  (((db.messages.filter (fun m => m.conversation_id == conversation_id)).insertionSort
      (fun a b => a.id ≤ b.id)).map (fun m => m.message_list)).flatten

/-- `Database.add_messages_to_conversation`: INSERT one batch with the
next SERIAL id (foreign key requires the conversation to exist), then
`UPDATE conversations SET updated_at = CURRENT_TIMESTAMP`. -/
def add_messages_to_conversation (db : DB) (conversation_id : String)
    (batch : List Msg) : Except DBErr DB :=
  if !conversation_exists db conversation_id then .error .foreignKeyViolation
  else .ok { db with
    messages := db.messages ++
      [{ id := db.next_message_id, conversation_id := conversation_id,
         message_list := batch, created_at := db.now }],
    next_message_id := db.next_message_id + 1,
    conversations := db.conversations.map (fun c =>
      if c.id == conversation_id then { c with updated_at := db.now } else c) }

/-- `Database.transfer_conversations_to_user`: `UPDATE conversations SET
user_id = to, updated_at = NOW() WHERE user_id = from AND is_active =
TRUE`, returning the affected-row count parsed from the command tag; the
foreign key requires the target user to exist when any row is updated. -/
def transfer_conversations_to_user (db : DB)
    (from_user_id to_user_id : String) : Except DBErr (Nat × DB) :=
  let matched := db.conversations.filter
    (fun c => c.user_id == from_user_id && c.is_active)
  if matched.length != 0 && !user_exists db to_user_id then
    .error .foreignKeyViolation
  else
    .ok (matched.length,
      { db with conversations := db.conversations.map (fun c =>
          if c.user_id == from_user_id && c.is_active then
            { c with user_id := to_user_id, updated_at := db.now }
          else c) })

/-! ### Endpoints (`app/main.py`, duplicated in `app/chat_routes.py`) -/

/-- Outcome of `GET /chat/{conversation_id}` after identity resolution:
HTTP 404, or the stored history (its JSON line rendering is opaque
here). -/
inductive GetChatResult where
  | notFound
  | messages (msgs : List Msg)
deriving Repr, DecidableEq

/-- `get_chat` endpoint body, after the identity was resolved to
`(user_id, is_anonymous)`: ensure the anonymous user row exists, then the
single authorization gate `user_owns_conversation` decides between 404
and the message history. -/
def get_chat (db : DB) (conversation_id user_id : String)
    (is_anonymous : Bool) : Except DBErr (GetChatResult × DB) :=
  match ensure_anonymous_user_exists db user_id is_anonymous with
  | .error e => .error e
  | .ok db1 =>
    if !user_owns_conversation db1 conversation_id user_id then
      .ok (.notFound, db1)
    else
      .ok (.messages (get_conversation_messages db1 conversation_id), db1)

/-- Outcome of `POST /chat/migrate-conversations`: HTTP 401, or the
response body `(migrated_conversations, user_id, anonymous_user_id)`. -/
inductive MigrateResult where
  | unauthorized
  | migrated (count : Nat) (user_id : String)
      (anonymous_user_id : Option String)
deriving Repr, DecidableEq

/-- `migrate_conversations` endpoint: 401 unless the session resolves an
authenticated identity; with no (truthy) `anonymous_user_id` cookie,
report 0 without touching the store; otherwise transfer every active
conversation of the cookie-named user to the caller.  (The
`(None, True)` resolver shape is unreachable.) -/
def migrate_conversations (ss : SessionState) (now : Int)
    (req : RequestCookies) (db : DB) :
    Except DBErr (MigrateResult × DB × SessionState) :=
  match get_authenticated_user_id ss now req with
  | ((some user_id, true), ss1) =>
    match req.anonymous_user_id with
    | none => .ok (.migrated 0 user_id none, db, ss1)
    | some a =>
      if a == "" then .ok (.migrated 0 user_id none, db, ss1)
      else
        match transfer_conversations_to_user db a user_id with
        | .error e => .error e
        | .ok (n, db1) => .ok (.migrated n user_id (some a), db1, ss1)
  | ((_, _), ss1) => .ok (.unauthorized, db, ss1)

/-- A streamed newline-delimited chat line (timestamps elided). -/
structure ChatLine where
  role : String
  content : String
deriving Repr, DecidableEq

/-- The instant echo of the user's own prompt, always the first line. -/
def user_echo (prompt : String) : ChatLine :=
  { role := "user", content := prompt }

/-- One model-role delta line. -/
def model_line (text : String) : ChatLine :=
  { role := "model", content := text }

/-- The tail of the `stream_messages` generator once the conversation row
exists: load history, stream the model deltas, then persist the new batch.
Any exception aborts with the lines flushed so far and the store state at
that point. -/
def stream_after_create (db : DB) (conversation_id : String)
    (lines : List ChatLine) (model_result : Except Unit (List String))
    (new_batch : List Msg) : List ChatLine × DB × Bool :=
  match model_result with
  | .error _ => (lines, db, true)
  | .ok texts =>
    let lines2 := lines ++ texts.map model_line
    match add_messages_to_conversation db conversation_id new_batch with
    | .error _ => (lines2, db, true)
    | .ok db1 => (lines2, db1, false)

/-- The `stream_messages` generator of `POST /chat/{id}`: echo the user
line, then for a not-yet-persisted conversation run the blocking
topic-generation sub-call and create the row with the generated title
before loading history and streaming; `conv_exists` is the
`conversation_exists` check done before streaming started,
`topic_result` the outcome of `topic_agent.run`, `model_result` the
streamed model deltas, and `new_batch` the serialized turn that
`result.new_messages_json()` would persist.  The third component of the
result records whether the response failed (an exception escaped the
generator, truncating the stream). -/
def stream_messages (db : DB) (conversation_id user_id prompt : String)
    (conv_exists : Bool) (topic_result : Except Unit String)
    (model_result : Except Unit (List String)) (new_batch : List Msg) :
    List ChatLine × DB × Bool :=
  let lines := [user_echo prompt]
  if !conv_exists then
    match topic_result with
    | .error _ => (lines, db, true)
    | .ok topic =>
      match create_conversation_with_id db conversation_id user_id topic with
      | .error _ => (lines, db, true)
      | .ok db1 =>
        stream_after_create db1 conversation_id lines model_result new_batch
  else
    stream_after_create db conversation_id lines model_result new_batch

/-! ### Concrete states used to evaluate the model -/

/-- Decidable equality of `Except` results, for evaluating the model on
concrete states. -/
instance {ε α : Type} [DecidableEq ε] [DecidableEq α] :
    DecidableEq (Except ε α) := fun
  | .error e, .error f =>
    match decEq e f with
    | isTrue h => isTrue (by rw [h])
    | isFalse h => isFalse (by intro hh; injection hh; contradiction)
  | .error _, .ok _ => isFalse (by intro h; exact Except.noConfusion h)
  | .ok _, .error _ => isFalse (by intro h; exact Except.noConfusion h)
  | .ok a, .ok b =>
    match decEq a b with
    | isTrue h => isTrue (by rw [h])
    | isFalse h => isFalse (by intro hh; injection hh; contradiction)

/-- A validated session payload, live until time 100. -/
def demoPayload : SessionPayload :=
  { id := "user-1", provider_id := "g-1", email := "a@b.c", name := "Ada",
    picture := none, provider := "google", created_at := 0,
    expires_at := 100 }

/-- Session store in Redis mode holding the live `demoPayload`. -/
def demoRedis : SessionState :=
  { useRedis := true, store := [(session_key "s1", .valid demoPayload)] }

/-- Session store in in-memory fallback mode holding the same record. -/
def demoFallback : SessionState :=
  { useRedis := false, store := [(session_key "s1", .valid demoPayload)] }

/-- Session store holding a record that fails payload validation. -/
def demoCorrupt : SessionState :=
  { useRedis := true, store := [(session_key "s2", .corrupt)] }

/-- Two users and a fresh conversation `c1` created by `u1`. -/
def demoDb1 : DB :=
  { now := 10, users := [⟨"u1", none⟩, ⟨"u2", none⟩], conversations := [],
    messages := [], next_message_id := 0 }

/-- `demoDb1` after `create_conversation_with_id "c1" "u1" "t"`. -/
def demoDb1c : DB :=
  { demoDb1 with
    conversations := [{ id := "c1", user_id := "u1", title := some "t", created_at := 10, updated_at := 10, is_active := true }] }

/-- One user owning an empty conversation `c`, message sequence at 0. -/
def demoDb6 : DB :=
  { now := 3, users := [⟨"A", none⟩],
    conversations := [{ id := "c", user_id := "A", title := none, created_at := 0, updated_at := 0, is_active := true }],
    messages := [], next_message_id := 0 }

/-- `demoDb6` after appending the batch `["m1", "m2"]` to `c`. -/
def demoDb6a : DB :=
  { demoDb6 with
    messages := [{ id := 0, conversation_id := "c", message_list := ["m1", "m2"], created_at := 3 }],
    next_message_id := 1,
    conversations := [{ id := "c", user_id := "A", title := none, created_at := 0, updated_at := 3, is_active := true }] }

/-- `demoDb6a` after appending the batch `["m3"]` to `c`. -/
def demoDb6b : DB :=
  { demoDb6a with
    messages := demoDb6a.messages ++ [{ id := 1, conversation_id := "c", message_list := ["m3"], created_at := 3 }],
    next_message_id := 2 }

/-- Users `A`, `B`; `A` owns active `c1` and inactive `c2`. -/
def demoDb7 : DB :=
  { now := 10, users := [⟨"A", none⟩, ⟨"B", none⟩],
    conversations := [
      { id := "c1", user_id := "A", title := some "t1", created_at := 1,
        updated_at := 5, is_active := true },
      { id := "c2", user_id := "A", title := some "t2", created_at := 2,
        updated_at := 7, is_active := false }],
    messages := [], next_message_id := 0 }

/-- `demoDb7` after `transfer_conversations_to_user "A" "B"`: the active
`c1` moved, the inactive `c2` did not. -/
def demoDb7t : DB :=
  { demoDb7 with conversations := [
      { id := "c1", user_id := "B", title := some "t1", created_at := 1,
        updated_at := 10, is_active := true },
      { id := "c2", user_id := "A", title := some "t2", created_at := 2,
        updated_at := 7, is_active := false }] }

/-- A single user `A` owning one active conversation. -/
def demoDb7s : DB :=
  { now := 10, users := [⟨"A", none⟩],
    conversations := [{ id := "c1", user_id := "A", title := some "t1", created_at := 1, updated_at := 5, is_active := true }],
    messages := [], next_message_id := 0 }

/-- `demoDb7s` after the self-transfer `A` to `A` (the row is matched and
rewritten, bumping `updated_at`). -/
def demoDb7ss : DB :=
  { demoDb7s with
    conversations := [{ id := "c1", user_id := "A", title := some "t1", created_at := 1, updated_at := 10, is_active := true }] }

/-- User `A` with two active conversations of distinct recency. -/
def demoDb8 : DB :=
  { now := 20, users := [⟨"A", none⟩],
    conversations := [
      { id := "c1", user_id := "A", title := some "t1", created_at := 1,
        updated_at := 5, is_active := true },
      { id := "c2", user_id := "A", title := some "t2", created_at := 2,
        updated_at := 9, is_active := true }],
    messages := [], next_message_id := 0 }

/-- `demoDb1` with a conversation `c9` created for `u1` with title
`Topic`. -/
def demoDb9c : DB :=
  { demoDb1 with
    conversations := [{ id := "c9", user_id := "u1", title := some "Topic", created_at := 10, updated_at := 10, is_active := true }] }

/-- The authenticated user `user-1` (of `demoPayload`) plus an anonymous
user owning one active conversation. -/
def demoDb10 : DB :=
  { now := 30, users := [⟨"user-1", none⟩, ⟨"anon-x", none⟩],
    conversations := [{ id := "ca", user_id := "anon-x", title := some "t", created_at := 1, updated_at := 2, is_active := true }],
    messages := [], next_message_id := 0 }

/-- `demoDb10` after transferring `anon-x`'s conversations to `user-1`. -/
def demoDb10t : DB :=
  { demoDb10 with
    conversations := [{ id := "ca", user_id := "user-1", title := some "t", created_at := 1, updated_at := 30, is_active := true }] }

/-! ### Helper lemmas -/

theorem getData_deleteData (s : SessionState) (key : String) :
    getData (deleteData s key) key = none := by
  have hfind : List.find? (fun kv => kv.1 == key)
      (s.store.filter (fun kv => kv.1 != key)) = none := by
    rw [List.find?_eq_none]
    intro kv hkv
    have h2 := (List.mem_filter.mp hkv).2
    simpa [bne_iff_ne] using h2
  simp [getData, deleteData, hfind]

theorem get_session_after_delete (s : SessionState) (now : Int)
    (sid : String) :
    (get_session (deleteData s (session_key sid)) now sid).1 = none := by
  simp [get_session, getData_deleteData]

/-! ### C2: session lazy expiry -/

/-- C2: `get_session` returns `None` in exactly three cases: the record is
absent, the stored payload fails validation (the record is deleted as a
side effect), or `expires_at` is in the past (the record is deleted as a
side effect); because of the deletion a second `get_session` at any later
time also returns `None` (no resurrection); otherwise the validated
payload is returned and the store is untouched. -/
theorem get_session_none_cases (s : SessionState) (now now2 : Int)
    (sid : String) :
    ((get_session s now sid).1 = none ↔
      getData s (session_key sid) = none ∨
      getData s (session_key sid) = some .corrupt ∨
      ∃ p, getData s (session_key sid) = some (.valid p) ∧
        p.expires_at < now) ∧
    (getData s (session_key sid) = some .corrupt →
      get_session s now sid = (none, (delete_session s sid).2)) ∧
    (∀ p, getData s (session_key sid) = some (.valid p) →
      p.expires_at < now →
      get_session s now sid = (none, (delete_session s sid).2)) ∧
    ((get_session s now sid).1 = none →
      (get_session (get_session s now sid).2 now2 sid).1 = none) ∧
    (∀ p, getData s (session_key sid) = some (.valid p) →
      ¬ p.expires_at < now → get_session s now sid = (some p, s)) := by
  cases hg : getData s (session_key sid) with
  | none =>
    refine ⟨?_, ?_, ?_, ?_, ?_⟩
    · simp [get_session, hg]
    · intro h
      exact nomatch h
    · intro p hp
      exact nomatch hp
    · intro _
      simp [get_session, hg]
    · intro p hp
      exact nomatch hp
  | some sp =>
    cases sp with
    | corrupt =>
      refine ⟨?_, ?_, ?_, ?_, ?_⟩
      · simp [get_session, hg]
      · intro _
        simp [get_session, hg]
      · intro p hp
        exact nomatch hp
      · intro _
        simpa [get_session, hg, delete_session] using
          get_session_after_delete s now2 sid
      · intro p hp
        exact nomatch hp
    | valid p =>
      by_cases hexp : p.expires_at < now
      · refine ⟨?_, ?_, ?_, ?_, ?_⟩
        · simp [get_session, hg, hexp]
        · intro h
          exact nomatch h
        · intro q hq hqe
          simp [get_session, hg, hexp]
        · intro _
          simpa [get_session, hg, hexp, delete_session] using
            get_session_after_delete s now2 sid
        · intro q hq hne
          injection hq with h1
          injection h1 with h2
          subst h2
          exact absurd hexp hne
      · refine ⟨?_, ?_, ?_, ?_, ?_⟩
        · simp [get_session, hg, hexp]
        · intro h
          exact nomatch h
        · intro q hq hqe
          injection hq with h1
          injection h1 with h2
          subst h2
          exact absurd hqe hexp
        · intro hnone
          simp [get_session, hg, hexp] at hnone
        · intro q hq hne
          injection hq with h1
          injection h1 with h2
          subst h2
          simp [get_session, hg, hexp]

/-- Witness for C2, at a store holding a corrupt record under `s2` and a
live record under `s1`: the corrupt read deletes and returns `None`, a
second read still returns `None`, and the live read returns the payload
unchanged. -/
theorem get_session_none_cases_witness :
    get_session demoCorrupt 5 "s2" = (none, (delete_session demoCorrupt "s2").2) ∧
    (get_session (get_session demoCorrupt 5 "s2").2 99 "s2").1 = none ∧
    get_session demoRedis 50 "s1" = (some demoPayload, demoRedis) := by
  have h := get_session_none_cases demoCorrupt 5 99 "s2"
  have h2 := get_session_none_cases demoRedis 50 0 "s1"
  exact ⟨h.2.1 (by decide), h.2.2.2.1 (by decide),
    h2.2.2.2.2 demoPayload (by decide) (by decide)⟩

/-! ### C3: refresh_session -/

/-- C3 (code bug): `refresh_session` can never extend a live session.  At
a live session in Redis mode, `json.dumps(session_data)` raises
`TypeError` because `model_dump()` left `created_at` as a `datetime`
object, so the call crashes instead of returning `True`; in the
in-memory fallback mode the code returns `False` even though the session
exists and is unexpired; only the absent-session path behaves as
specified (returns `False`). -/
theorem refresh_session_crashes_on_live_session :
    refresh_session demoRedis 50 "s1" = .error () ∧
    (get_session demoRedis 50 "s1").1 = some demoPayload ∧
    refresh_session demoFallback 50 "s1" = .ok (false, demoFallback) ∧
    (get_session demoFallback 50 "s1").1 = some demoPayload ∧
    refresh_session demoRedis 50 "missing" = .ok (false, demoRedis) := by
  decide

/-! ### C4: identity resolution -/

/-- C4: identity resolution prefers the session: with a (truthy) session
cookie whose lookup returns a live payload, the resolved identity is
`(payload.id, authenticated)` whatever the anonymous cookie holds; with
no live session, a present anonymous cookie value is reused verbatim (so
two requests carrying the same cookie resolve to the same user id,
whether the session cookie is absent or dead), and a fresh `anon_<uuid>`
id is minted only when no anonymous cookie is on the request. -/
theorem identity_resolution_spec (ss ss1 : SessionState) (now : Int)
    (anon : Option String) (sid a fresh_uuid : String) (p : SessionPayload) :
    (sid ≠ "" → get_session ss now sid = (some p, ss1) →
      get_user_id_for_conversation ss now ⟨some sid, anon⟩ fresh_uuid =
        ((p.id, false), ss1)) ∧
    (a ≠ "" →
      get_user_id_for_conversation ss now ⟨none, some a⟩ fresh_uuid =
        ((a, true), ss)) ∧
    (a ≠ "" → sid ≠ "" → (get_session ss now sid).1 = none →
      get_user_id_for_conversation ss now ⟨some sid, some a⟩ fresh_uuid =
        ((a, true), (get_session ss now sid).2)) ∧
    (get_user_id_for_conversation ss now ⟨none, none⟩ fresh_uuid =
      (("anon_" ++ fresh_uuid, true), ss)) := by
  refine ⟨?_, ?_, ?_, ?_⟩
  · intro hsid hlive
    simp [get_user_id_for_conversation, get_authenticated_user_id,
      bne_iff_ne, hsid, hlive]
  · intro ha
    simp [get_user_id_for_conversation, get_authenticated_user_id,
      get_or_create_anonymous_user_id, bne_iff_ne, ha]
  · intro ha hsid hdead
    cases hge : get_session ss now sid with
    | mk o ss2 =>
      rw [hge] at hdead
      simp only at hdead
      subst hdead
      simp [get_user_id_for_conversation, get_authenticated_user_id,
        get_or_create_anonymous_user_id, bne_iff_ne, ha, hsid, hge]
  · simp [get_user_id_for_conversation, get_authenticated_user_id,
      get_or_create_anonymous_user_id]

/-- Witness for C4 at a concrete store: a live session in `demoRedis` wins
over a stale anonymous cookie; the cookie value `"anon_old"` is reused
when the session cookie is absent or names no record; a fresh id is
minted only with no cookies at all. -/
theorem identity_resolution_spec_witness :
    get_user_id_for_conversation demoRedis 50 ⟨some "s1", some "anon_old"⟩ "u9" =
      ((demoPayload.id, false), demoRedis) ∧
    get_user_id_for_conversation demoRedis 50 ⟨none, some "anon_old"⟩ "u9" =
      ((("anon_old" : String), true), demoRedis) ∧
    get_user_id_for_conversation demoRedis 50 ⟨some "nosuch", some "anon_old"⟩ "u9" =
      ((("anon_old" : String), true), (get_session demoRedis 50 "nosuch").2) ∧
    get_user_id_for_conversation demoRedis 50 ⟨none, none⟩ "u9" =
      ((("anon_u9" : String), true), demoRedis) := by
  have h := identity_resolution_spec demoRedis demoRedis 50 (some "anon_old")
    "s1" "anon_old" "u9" demoPayload
  have h2 := identity_resolution_spec demoRedis demoRedis 50 (some "anon_old")
    "nosuch" "anon_old" "u9" demoPayload
  exact ⟨h.1 (by decide) (by decide), h.2.1 (by decide),
    h2.2.2.1 (by decide) (by decide) (by decide), h2.2.2.2⟩

/-! ### C5: idempotent anonymous user creation -/

/-- C5: for a fresh anonymous user id (no row with that id, and no other
row already holding the derived username), `ensure_anonymous_user_exists`
creates exactly one user row whose username is derived from the id's
suffix (`Anonymous-` plus the first 8 characters after the last
underscore), and calling it again returns the same state unchanged, so
any number of further calls change nothing. -/
theorem ensure_anonymous_user_idempotent (db : DB) (uid : String)
    (hfresh : ∀ u ∈ db.users, u.id ≠ uid)
    (hname : ∀ u ∈ db.users, u.username ≠ some (anon_username uid)) :
    ensure_anonymous_user_exists db uid true =
      .ok { db with users := db.users ++
        [{ id := uid, username := some (anon_username uid) }] } ∧
    ({ db with users := db.users ++
        [{ id := uid, username := some (anon_username uid) }] } : DB).users.filter
      (fun u => u.id == uid) =
      [{ id := uid, username := some (anon_username uid) }] ∧
    ensure_anonymous_user_exists
      { db with users := db.users ++
        [{ id := uid, username := some (anon_username uid) }] } uid true =
      .ok { db with users := db.users ++
        [{ id := uid, username := some (anon_username uid) }] } := by
  have hfind : db.users.find? (fun u => u.id == uid) = none := by
    rw [List.find?_eq_none]
    intro u hu
    simp [hfresh u hu]
  have hany : (db.users.any
      (fun u => u.username == some (anon_username uid))) = false := by
    rw [Bool.eq_false_iff]
    intro hcontra
    rw [List.any_eq_true] at hcontra
    obtain ⟨u, hu, hp⟩ := hcontra
    exact hname u hu (by simpa using hp)
  have hfilter : db.users.filter (fun u => u.id == uid) = [] := by
    rw [List.filter_eq_nil_iff]
    intro u hu
    simp [hfresh u hu]
  refine ⟨?_, ?_, ?_⟩
  · simp [ensure_anonymous_user_exists, get_or_create_user, hfind, hany,
      Except.map]
  · rw [List.filter_append, hfilter]
    simp
  · have hfind2 : (db.users ++
        [({ id := uid, username := some (anon_username uid) } : UserRow)]).find?
        (fun u => u.id == uid) =
        some { id := uid, username := some (anon_username uid) } := by
      rw [List.find?_append, hfind]
      simp
    simp [ensure_anonymous_user_exists, get_or_create_user, hfind2,
      Except.map]

/-- Witness for C5: creating the anonymous user for `anon_abcdefghij` in a
store that only holds an unrelated user, twice. -/
theorem ensure_anonymous_user_idempotent_witness :
    ensure_anonymous_user_exists demoDb1 "anon_abcdefghij" true =
      .ok { demoDb1 with users := demoDb1.users ++
        [{ id := "anon_abcdefghij", username := some "Anonymous-abcdefgh" }] } ∧
    ensure_anonymous_user_exists
      { demoDb1 with users := demoDb1.users ++
        [{ id := "anon_abcdefghij", username := some "Anonymous-abcdefgh" }] }
      "anon_abcdefghij" true =
      .ok { demoDb1 with users := demoDb1.users ++
        [{ id := "anon_abcdefghij", username := some "Anonymous-abcdefgh" }] } := by
  have h := ensure_anonymous_user_idempotent demoDb1 "anon_abcdefghij"
    (by decide) (by decide)
  exact ⟨h.1, h.2.2⟩

/-! ### C1: ownership isolation -/

theorem create_conversation_ok (db db1 : DB) (cid uid title : String)
    (h : create_conversation_with_id db cid uid title = .ok db1) :
    conversation_exists db cid = false ∧
    db1 = { db with conversations := db.conversations ++
      [{ id := cid, user_id := uid, title := some title,
         created_at := db.now, updated_at := db.now, is_active := true }] } := by
  unfold create_conversation_with_id at h
  split at h
  · exact nomatch h
  · split at h
    · exact nomatch h
    · rename_i h1 h2
      injection h with h3
      exact ⟨Bool.eq_false_iff.mpr h1, h3.symm⟩

theorem ensure_ok_conversations (db db1 : DB) (u : String) (b : Bool)
    (h : ensure_anonymous_user_exists db u b = .ok db1) :
    db1.conversations = db.conversations ∧ db1.messages = db.messages := by
  unfold ensure_anonymous_user_exists at h
  split at h
  · unfold get_or_create_user at h
    cases hf : db.users.find? (fun x => x.id == u) with
    | some v =>
      rw [hf] at h
      simp only [Except.map] at h
      injection h with h2
      subst h2
      exact ⟨rfl, rfl⟩
    | none =>
      rw [hf] at h
      by_cases hany : (db.users.any
          fun v => v.username == some (anon_username u)) = true
      · rw [if_pos hany] at h
        exact nomatch h
      · rw [if_neg hany] at h
        injection h with h2
        subst h2
        exact ⟨rfl, rfl⟩
  · injection h with h2
    subst h2
    exact ⟨rfl, rfl⟩

theorem user_owns_eq_false_of_not_exists (db : DB) (c u : String)
    (h : conversation_exists db c = false) :
    user_owns_conversation db c u = false := by
  rw [Bool.eq_false_iff]
  intro hcontra
  rw [user_owns_conversation, List.any_eq_true] at hcontra
  obtain ⟨x, hx, hp⟩ := hcontra
  rw [Bool.and_eq_true] at hp
  have hxid : (x.id == c) = true := hp.1
  have : conversation_exists db c = true := by
    rw [conversation_exists, List.any_eq_true]
    exact ⟨x, hx, hxid⟩
  rw [this] at h
  exact Bool.noConfusion h

theorem user_owns_congr (db db1 : DB) (c u : String)
    (h : db1.conversations = db.conversations) :
    user_owns_conversation db1 c u = user_owns_conversation db c u := by
  simp only [user_owns_conversation]
  rw [h]

/-- C1: if conversation `c` was created with owner `u1`, then for any
other user `u2` the authorization gate `user_owns_conversation c u2`
returns `false` (and it returns `false`, not an error, for a conversation
that does not exist at all), and a `GET /chat/{c}` request resolved to
identity `u2` answers HTTP 404. -/
theorem conversation_ownership_isolation (db db1 db2 : DB)
    (c u1 u2 title : String) (is_anon : Bool)
    (hne : u1 ≠ u2)
    (hc : create_conversation_with_id db c u1 title = .ok db1)
    (he : ensure_anonymous_user_exists db1 u2 is_anon = .ok db2) :
    user_owns_conversation db1 c u2 = false ∧
    get_chat db1 c u2 is_anon = .ok (.notFound, db2) ∧
    (∀ dbx cx ux, conversation_exists dbx cx = false →
      user_owns_conversation dbx cx ux = false) := by
  obtain ⟨hnex, hdb1⟩ := create_conversation_ok db db1 c u1 title hc
  have hold : user_owns_conversation db c u2 = false :=
    user_owns_eq_false_of_not_exists db c u2 hnex
  have howns : user_owns_conversation db1 c u2 = false := by
    subst hdb1
    rw [user_owns_conversation] at hold ⊢
    simp only [List.any_append, hold, Bool.false_or]
    simp [hne]
  refine ⟨howns, ?_, fun dbx cx ux h =>
    user_owns_eq_false_of_not_exists dbx cx ux h⟩
  have howns2 : user_owns_conversation db2 c u2 = false := by
    rw [user_owns_congr db1 db2 c u2
      (ensure_ok_conversations db1 db2 u2 is_anon he).1]
    exact howns
  simp [get_chat, he, howns2]

/-- Witness for C1: `u1` creates `c1` in `demoDb1`; `u2` does not own it,
`GET /chat/c1` as `u2` is 404, and the gate is `false` on a conversation
id that exists nowhere. -/
theorem conversation_ownership_isolation_witness :
    user_owns_conversation demoDb1c "c1" "u2" = false ∧
    get_chat demoDb1c "c1" "u2" false = .ok (.notFound, demoDb1c) ∧
    user_owns_conversation demoDb1 "nosuch" "u2" = false := by
  have h := conversation_ownership_isolation demoDb1 demoDb1c demoDb1c
    "c1" "u1" "u2" "t" false (by decide) (by decide) (by decide)
  exact ⟨h.1, h.2.1, h.2.2 demoDb1 "nosuch" "u2" (by decide)⟩

/-! ### C6: batch ordering by sequence id -/

theorem add_messages_ok (db db1 : DB) (cid : String) (batch : List Msg)
    (h : add_messages_to_conversation db cid batch = .ok db1) :
    conversation_exists db cid = true ∧
    db1 = { db with
      messages := db.messages ++ [{ id := db.next_message_id, conversation_id := cid, message_list := batch, created_at := db.now }],
      next_message_id := db.next_message_id + 1,
      conversations := db.conversations.map (fun c =>
        if c.id == cid then { c with updated_at := db.now } else c) } := by
  unfold add_messages_to_conversation at h
  split at h
  · exact nomatch h
  · rename_i h1
    injection h with h2
    refine ⟨?_, h2.symm⟩
    cases hx : conversation_exists db cid with
    | true => rfl
    | false =>
      exfalso
      apply h1
      rw [hx]
      rfl

theorem sort_by_id_eq_self (l : List MessageRow)
    (h : l.Pairwise (fun a b => a.id < b.id)) :
    l.insertionSort (fun a b => a.id ≤ b.id) = l :=
  List.Sorted.insertionSort_eq (h.imp fun hab => Nat.le_of_lt hab)

/-- C6: appending batch `B1` and then batch `B2` to a conversation makes
`get_conversation_messages` return the previous history followed by all
of `B1` and then all of `B2`: batches are concatenated in insertion
order, driven by the auto-incrementing sequence id, so every message of
`B1` comes before any message of `B2`. -/
theorem get_history_appends_batches_in_order (db db1 db2 : DB)
    (cid : String) (B1 B2 : List Msg)
    (hsorted : db.messages.Pairwise (fun a b => a.id < b.id))
    (hbound : ∀ m ∈ db.messages, m.id < db.next_message_id)
    (h1 : add_messages_to_conversation db cid B1 = .ok db1)
    (h2 : add_messages_to_conversation db1 cid B2 = .ok db2) :
    get_conversation_messages db2 cid =
      get_conversation_messages db cid ++ B1 ++ B2 := by
  obtain ⟨hex1, hdb1⟩ := add_messages_ok db db1 cid B1 h1
  obtain ⟨hex2, hdb2⟩ := add_messages_ok db1 db2 cid B2 h2
  subst hdb2
  subst hdb1
  simp only [get_conversation_messages]
  have hFsub : List.Sublist (db.messages.filter
      (fun m => m.conversation_id == cid)) db.messages :=
    List.filter_sublist db.messages
  have hFsorted : (db.messages.filter
      (fun m => m.conversation_id == cid)).Pairwise
      (fun a b => a.id < b.id) := hsorted.sublist hFsub
  have hsortF := sort_by_id_eq_self _ hFsorted
  have hfilterBig :
      (((db.messages ++ [({ id := db.next_message_id, conversation_id := cid, message_list := B1, created_at := db.now } : MessageRow)]) ++ [({ id := db.next_message_id + 1, conversation_id := cid, message_list := B2, created_at := db.now } : MessageRow)]).filter
        (fun m => m.conversation_id == cid)) =
      (db.messages.filter (fun m => m.conversation_id == cid)) ++
        [{ id := db.next_message_id, conversation_id := cid, message_list := B1, created_at := db.now },
         { id := db.next_message_id + 1, conversation_id := cid, message_list := B2, created_at := db.now }] := by
    simp [List.filter_append]
  have hbig : List.Pairwise (fun (a b : MessageRow) => a.id < b.id)
      ((db.messages.filter (fun m => m.conversation_id == cid)) ++
      [({ id := db.next_message_id, conversation_id := cid, message_list := B1, created_at := db.now } : MessageRow),
       ({ id := db.next_message_id + 1, conversation_id := cid, message_list := B2, created_at := db.now } : MessageRow)]) := by
    rw [List.pairwise_append]
    refine ⟨hFsorted, ?_, ?_⟩
    · simp [Nat.lt_succ_self]
    · intro a ha b hb
      have haid : a.id < db.next_message_id :=
        hbound a (hFsub.subset ha)
      simp only [List.mem_cons, List.mem_singleton, List.not_mem_nil,
        or_false] at hb
      rcases hb with hb | hb
      · rw [hb]
        exact haid
      · rw [hb]
        exact Nat.lt_trans haid (Nat.lt_succ_self _)
  have hsortBig := sort_by_id_eq_self _ hbig
  rw [hfilterBig, hsortBig, hsortF]
  simp [List.map_append, List.flatten_append, List.append_assoc]

/-- Witness for C6: appending `["m1", "m2"]` then `["m3"]` to the empty
conversation `c` yields the history `["m1", "m2", "m3"]`. -/
theorem get_history_appends_batches_in_order_witness :
    get_conversation_messages demoDb6b "c" =
      get_conversation_messages demoDb6 "c" ++ ["m1", "m2"] ++ ["m3"] :=
  get_history_appends_batches_in_order demoDb6 demoDb6a demoDb6b "c"
    ["m1", "m2"] ["m3"] (by decide) (by decide) (by decide) (by decide)

/-! ### C7: ownership transfer -/

theorem transfer_ok (db db1 : DB) (A B : String) (n : Nat)
    (h : transfer_conversations_to_user db A B = .ok (n, db1)) :
    n = (db.conversations.filter
      (fun c => c.user_id == A && c.is_active)).length ∧
    db1 = { db with conversations := db.conversations.map (fun c =>
      if c.user_id == A && c.is_active then
        { c with user_id := B, updated_at := db.now } else c) } := by
  unfold transfer_conversations_to_user at h
  simp only [] at h
  split at h
  · exact nomatch h
  · injection h with h2
    injection h2 with ha hb
    exact ⟨ha.symm, hb.symm⟩

theorem transfer_moves_active (db db1 : DB) (A B : String) (n : Nat)
    (h : transfer_conversations_to_user db A B = .ok (n, db1)) :
    ∀ c ∈ db.conversations, c.user_id = A → c.is_active = true →
      user_owns_conversation db1 c.id B = true := by
  obtain ⟨-, hdb1⟩ := transfer_ok db db1 A B n h
  subst hdb1
  intro c hc hA hact
  rw [user_owns_conversation, List.any_eq_true]
  refine ⟨{ c with user_id := B, updated_at := db.now },
    List.mem_map.mpr ⟨c, hc, ?_⟩, by simp⟩
  rw [if_pos]
  rw [hA, hact]
  simp

/-- C7 counterexample: the claim fails as universally stated.  First, the
UPDATE filters on `is_active`: with `A` owning active `c1` and inactive
`c2`, `transfer_all(A, B)` reports 1 and leaves `c2` owned by `A`, so not
every conversation previously owned by `A` is owned by `B`.  Second, for
`A = B` (reachable, since the cookie naming the source is
client-supplied) the matched row count is returned even though no owner
changed, and `list_for_user(A)` is not empty afterwards. -/
theorem transfer_all_counterexample :
    transfer_conversations_to_user demoDb7 "A" "B" = .ok (1, demoDb7t) ∧
    user_owns_conversation demoDb7t "c2" "A" = true ∧
    user_owns_conversation demoDb7t "c2" "B" = false ∧
    transfer_conversations_to_user demoDb7s "A" "A" = .ok (1, demoDb7ss) ∧
    get_user_conversations demoDb7ss "A" 50 =
      .ok [{ id := "c1", title := some "t1", created_at := 1, updated_at := 10, message_count := 0 }] := by
  decide

/-- C7 (amended): for distinct users `A ≠ B`, after a successful
`transfer_all(A, B)` the returned count equals the number of active
conversations `A` owned (exactly the rows reassigned), every active
conversation previously owned by `A` is now owned by `B`,
`list_for_user(A)` is empty, and rows owned by other users are
untouched. -/
theorem transfer_all_spec (db db1 : DB) (A B : String) (n : Nat)
    (hAB : A ≠ B)
    (h : transfer_conversations_to_user db A B = .ok (n, db1)) :
    n = (db.conversations.filter
      (fun c => c.user_id == A && c.is_active)).length ∧
    (∀ c ∈ db.conversations, c.user_id = A → c.is_active = true →
      user_owns_conversation db1 c.id B = true) ∧
    get_user_conversations db1 A 50 = .ok [] ∧
    (∀ c ∈ db.conversations, c.user_id ≠ A → c ∈ db1.conversations) := by
  obtain ⟨hn, hdb1⟩ := transfer_ok db db1 A B n h
  refine ⟨hn, transfer_moves_active db db1 A B n h, ?_, ?_⟩
  · subst hdb1
    have hBA : ((B == A) = false) := beq_eq_false_iff_ne.mpr (Ne.symm hAB)
    have hfilter : (db.conversations.map (fun c =>
        if c.user_id == A && c.is_active then
          { c with user_id := B, updated_at := db.now } else c)).filter
        (fun c => c.user_id == A && c.is_active) = [] := by
      rw [List.filter_eq_nil_iff]
      intro x hx
      rw [List.mem_map] at hx
      obtain ⟨c, hc, hgc⟩ := hx
      subst hgc
      by_cases hmatch : (c.user_id == A && c.is_active) = true
      · rw [if_pos hmatch]
        simp [hBA]
      · rw [if_neg hmatch]
        exact hmatch
    unfold get_user_conversations
    rw [if_neg (by decide : ¬ ((50 : Int) < 0))]
    simp only [hfilter]
    simp
  · intro c hc hne
    subst hdb1
    have hfalse : (c.user_id == A && c.is_active) = false := by
      rw [beq_eq_false_iff_ne.mpr hne]
      rfl
    refine List.mem_map.mpr ⟨c, hc, ?_⟩
    rw [hfalse]
    rfl

/-- Witness for C7 at `demoDb7` with `A ≠ B`: count 1, the active `c1`
now owned by `B`, and `A` listing nothing. -/
theorem transfer_all_spec_witness :
    (1 : Nat) = (demoDb7.conversations.filter
      (fun c => c.user_id == "A" && c.is_active)).length ∧
    user_owns_conversation demoDb7t "c1" "B" = true ∧
    get_user_conversations demoDb7t "A" 50 = .ok [] := by
  have h := transfer_all_spec demoDb7 demoDb7t "A" "B" 1 (by decide)
    (by decide)
  exact ⟨h.1, h.2.1 { id := "c1", user_id := "A", title := some "t1", created_at := 1, updated_at := 5, is_active := true } (by decide) rfl rfl, h.2.2.1⟩

/-! ### C8: conversation listing -/

/-- C8 counterexample: the code does not clamp the limit; a negative
limit is passed straight into the SQL `LIMIT` clause and errors
(PostgreSQL rejects a negative LIMIT). -/
theorem list_for_user_negative_limit :
    get_user_conversations demoDb8 "A" (-1) = .error .negativeLimit := by
  decide

/-- C8 (amended): for every nonnegative limit, `get_user_conversations`
succeeds and returns only the user's active conversations, sorted by
`updated_at` descending, each annotated with its batch count, truncated
to the limit; the Python-side default limit is 50; a negative limit is
not clamped but raises (see the counterexample). -/
theorem list_for_user_spec (db : DB) (uid : String) (limit : Int)
    (h : 0 ≤ limit) :
    ∃ res, get_user_conversations db uid limit = .ok res ∧
      res.length = min limit.toNat (db.conversations.filter
        (fun c => c.user_id == uid && c.is_active)).length ∧
      List.Pairwise
        (fun (i j : ConversationInfo) => j.updated_at ≤ i.updated_at) res ∧
      (∀ i ∈ res, ∃ c, c ∈ db.conversations ∧ c.user_id = uid ∧
        c.is_active = true ∧
        i = { id := c.id, title := c.title, created_at := c.created_at, updated_at := c.updated_at, message_count := message_count db c.id }) ∧
      get_user_conversations db uid = get_user_conversations db uid 50 := by
  haveI htot : IsTotal ConversationRow
      (fun a b => b.updated_at ≤ a.updated_at) :=
    ⟨fun a b => le_total b.updated_at a.updated_at⟩
  haveI htra : IsTrans ConversationRow
      (fun a b => b.updated_at ≤ a.updated_at) :=
    ⟨fun a b c hab hbc => le_trans hbc hab⟩
  unfold get_user_conversations
  rw [if_neg (not_lt.mpr h)]
  refine ⟨_, rfl, ?_, ?_, ?_, rfl⟩
  · simp [List.length_take,
      (List.perm_insertionSort
        (fun (a b : ConversationRow) => b.updated_at ≤ a.updated_at) _).length_eq]
  · have hsorted := List.sorted_insertionSort
      (fun (a b : ConversationRow) => b.updated_at ≤ a.updated_at)
      (db.conversations.filter (fun c => c.user_id == uid && c.is_active))
    have htaken := hsorted.sublist (List.take_sublist limit.toNat _)
    exact List.pairwise_map.mpr htaken
  · intro i hi
    rw [List.mem_map] at hi
    obtain ⟨c, hct, hfc⟩ := hi
    have hcs := (List.take_sublist limit.toNat _).subset hct
    have hcr := (List.perm_insertionSort
      (fun (a b : ConversationRow) => b.updated_at ≤ a.updated_at) _).subset hcs
    rw [List.mem_filter] at hcr
    obtain ⟨hcdb, hpred⟩ := hcr
    rw [Bool.and_eq_true] at hpred
    exact ⟨c, hcdb, beq_iff_eq.mp hpred.1, hpred.2, hfc.symm⟩

/-- Witness for C8 at `demoDb8` with limit 1: the call succeeds, the
result has length `min 1 2 = 1`, and the concrete value is the most
recently updated conversation `c2`. -/
theorem list_for_user_spec_witness :
    get_user_conversations demoDb8 "A" 1 =
      .ok [{ id := "c2", title := some "t2", created_at := 2, updated_at := 9, message_count := 0 }] ∧
    (∃ res, get_user_conversations demoDb8 "A" 1 = .ok res ∧
      res.length = 1) := by
  have h := list_for_user_spec demoDb8 "A" 1 (by decide)
  obtain ⟨res, heq, hlen, -, -, -⟩ := h
  refine ⟨by decide, res, heq, ?_⟩
  simpa using hlen

/-! ### C9: atomic conversation creation -/

/-- C9: in a `POST /chat/{id}` turn whose conversation id is not yet
persisted, a failing topic-generation sub-call fails the whole response
(only the already-flushed user echo line was produced) and leaves the
store untouched, so no conversation row is created; and whenever the
creation step does run, the created row carries the generated title, so
a persisted conversation always has its generated title. -/
theorem topic_failure_creates_nothing (db : DB) (cid uid prompt : String)
    (model_result : Except Unit (List String)) (batch : List Msg)
    (hnew : conversation_exists db cid = false) :
    stream_messages db cid uid prompt (conversation_exists db cid)
      (.error ()) model_result batch = ([user_echo prompt], db, true) ∧
    (∀ t db1, create_conversation_with_id db cid uid t = .ok db1 →
      (db1.conversations.filter (fun c => c.id == cid)).map
        (fun c => c.title) = [some t]) := by
  constructor
  · rw [hnew]
    rfl
  · intro t db1 hcreate
    obtain ⟨hnex, hdb1⟩ := create_conversation_ok db db1 cid uid t hcreate
    subst hdb1
    have hany : db.conversations.any (fun c => c.id == cid) = false := hnex
    have hold : db.conversations.filter (fun c => c.id == cid) = [] := by
      rw [List.filter_eq_nil_iff]
      exact List.any_eq_false.mp hany
    simp [List.filter_append, hold]

/-- Witness for C9: a turn on the fresh id `c9` in `demoDb1` with a
failing topic call produces only the echo line, fails, and leaves the
store unchanged; and a successful creation stores the generated title. -/
theorem topic_failure_creates_nothing_witness :
    stream_messages demoDb1 "c9" "u1" "hello"
      (conversation_exists demoDb1 "c9") (.error ()) (.ok ["hi"]) ["b"] =
      ([user_echo "hello"], demoDb1, true) ∧
    (demoDb9c.conversations.filter (fun c => c.id == "c9")).map
      (fun c => c.title) = [some "Topic"] := by
  have h := topic_failure_creates_nothing demoDb1 "c9" "u1" "hello"
    (.ok ["hi"]) ["b"] (by decide)
  exact ⟨h.1, h.2 "Topic" demoDb9c (by decide)⟩

/-! ### C10: migration trusts the cookie -/

/-- C10: for an authenticated `POST /chat/migrate-conversations`, the
transfer source is taken verbatim from the client-supplied
`anonymous_user_id` cookie — the theorem quantifies over an arbitrary
cookie value `a` with no hypothesis connecting `a` to the caller — so
every active conversation owned by whatever user the cookie names is
transferred to the caller; with no cookie the endpoint reports 0 and
leaves the store untouched. -/
theorem migrate_trusts_cookie (ss ss1 : SessionState) (now : Int)
    (db db1 : DB) (sid a : String) (p : SessionPayload) (n : Nat)
    (hsid : sid ≠ "")
    (hlive : get_session ss now sid = (some p, ss1)) :
    migrate_conversations ss now ⟨some sid, none⟩ db =
      .ok (.migrated 0 p.id none, db, ss1) ∧
    (a ≠ "" → transfer_conversations_to_user db a p.id = .ok (n, db1) →
      migrate_conversations ss now ⟨some sid, some a⟩ db =
        .ok (.migrated n p.id (some a), db1, ss1) ∧
      ∀ c ∈ db.conversations, c.user_id = a → c.is_active = true →
        user_owns_conversation db1 c.id p.id = true) := by
  have hauth : get_authenticated_user_id ss now ⟨some sid, none⟩ =
      ((some p.id, true), ss1) := by
    simp [get_authenticated_user_id, bne_iff_ne, hsid, hlive]
  constructor
  · simp [migrate_conversations, hauth]
  · intro ha htr
    have hauth2 : get_authenticated_user_id ss now ⟨some sid, some a⟩ =
        ((some p.id, true), ss1) := by
      simp [get_authenticated_user_id, bne_iff_ne, hsid, hlive]
    exact ⟨by simp [migrate_conversations, hauth2, ha, htr],
      transfer_moves_active db db1 a p.id n htr⟩

/-- Witness for C10: the caller authenticated as `user-1` via `demoRedis`
sends a cookie naming `anon-x`; the single active conversation of
`anon-x` is transferred to `user-1`, and without a cookie nothing
happens. -/
theorem migrate_trusts_cookie_witness :
    migrate_conversations demoRedis 50 ⟨some "s1", none⟩ demoDb10 =
      .ok (.migrated 0 "user-1" none, demoDb10, demoRedis) ∧
    migrate_conversations demoRedis 50 ⟨some "s1", some "anon-x"⟩ demoDb10 =
      .ok (.migrated 1 "user-1" (some "anon-x"), demoDb10t, demoRedis) ∧
    user_owns_conversation demoDb10t "ca" "user-1" = true := by
  have h := migrate_trusts_cookie demoRedis demoRedis 50 demoDb10 demoDb10t
    "s1" "anon-x" demoPayload 1 (by decide) (by decide)
  have h2 := h.2 (by decide) (by decide)
  exact ⟨h.1, h2.1, h2.2 { id := "ca", user_id := "anon-x", title := some "t", created_at := 1, updated_at := 2, is_active := true } (by decide) rfl rfl⟩
